import Mathlib

/-!
Verification development for the peer-to-peer marketplace backend:
the item lifecycle / cross-entity consistency engine (purchase, reference
synchronization, drift repair) and the pincode distance estimator.

The marketplace state is modelled as association lists of records keyed by
numeric ids (`ItemId`, `UserId`), mirroring the MongoDB collections.  Each
HTTP route body from `server/routes/items.js` and `server/routes/admin.js`
is embedded as a pure state-transforming function; MongoDB update operators
are modelled by their documented semantics (`$addToSet` appends only when
absent, `$pull` removes every occurrence, `findByIdAndUpdate` on a missing
id is a silent no-op).
-/

namespace Marketplace

abbrev ItemId := Nat
abbrev UserId := Nat

inductive ItemStatus
  | available
  | sold
  | pending
  | unavailable
deriving DecidableEq

/-- The fields of an item that the consistency engine reads and writes
(`server/models/Item.js`): owning seller, optional buyer, lifecycle status
and sale timestamp (timestamps are modelled as naturals). -/
structure Item where
  seller : UserId
  buyer : Option UserId := none
  status : ItemStatus := ItemStatus.available
  soldAt : Option Nat := none
deriving DecidableEq

/-- The four denormalized reference lists held on a user record
(`server/models/User.js`). -/
structure User where
  activeListings : List ItemId := []
  soldItems : List ItemId := []
  boughtItems : List ItemId := []
  watchlist : List ItemId := []
deriving DecidableEq

/-- The database: the items collection and the users collection. -/
structure DB where
  items : List (ItemId × Item) := []
  users : List (UserId × User) := []
deriving DecidableEq

/-- `findById`: first record stored under the given id, if any. -/
def findId {β : Type} (k : Nat) : List (Nat × β) → Option β
  | [] => none
  | p :: rest => if p.1 = k then some p.2 else findId k rest

/-- `findByIdAndUpdate`: rewrite the record stored under `k` in place;
a missing id is a silent no-op, exactly as in MongoDB without upsert. -/
def dbUpdate {β : Type} (k : Nat) (f : β → β) (l : List (Nat × β)) : List (Nat × β) :=
  l.map fun p => if p.1 = k then (k, f p.2) else p

/-- `$addToSet`: append the value only when it is not already present. -/
def addToSet (x : Nat) (l : List Nat) : List Nat :=
  if x ∈ l then l else l ++ [x]

/-- `$pull`: remove every occurrence of the value. -/
def pullId (x : Nat) (l : List Nat) : List Nat :=
  l.filter fun y => decide (y ≠ x)

/-- Outcome of the purchase route `POST /:id/buy` (items.js lines 355-444).
`serverError` is the route's catch-all 500 answer (line 437), reached when
an expression throws — e.g. the `item.seller._id` access on a populated
seller that resolved to null. -/
inductive BuyOutcome
  | itemNotFound
  | notAvailable
  | serverError
  | selfPurchase
  | buyerNotFound
  | purchased
deriving DecidableEq

/-- The purchase route `POST /:id/buy` (items.js lines 355-444):
find the item with its seller populated (404 when the item is absent),
then reject when the status is not `available`.  The self-purchase check
reads `item.seller._id` — when the seller's user record does not exist,
`populate` has left `item.seller` null, so that access throws a TypeError
which the route's catch turns into a 500 with nothing mutated.  Otherwise
reject a self purchase, find the buyer (404 when absent), mark the item
sold and update the buyer's and seller's reference lists.  No step is
ever rolled back. -/
def buyItem (now : Nat) (db : DB) (itemId : ItemId) (userId : UserId) :
    BuyOutcome × DB :=
  match findId itemId db.items with
  | none => (BuyOutcome.itemNotFound, db)
  | some item =>
    if item.status ≠ ItemStatus.available then (BuyOutcome.notAvailable, db)
    else
      match findId item.seller db.users with
      | none => (BuyOutcome.serverError, db)
      | some _ =>
        if item.seller = userId then (BuyOutcome.selfPurchase, db)
        else
          match findId userId db.users with
          | none => (BuyOutcome.buyerNotFound, db)
          | some _ =>
            (BuyOutcome.purchased,
              { items := dbUpdate itemId (fun it =>
                  { it with status := ItemStatus.sold, buyer := some userId,
                            soldAt := some now }) db.items,
                users := dbUpdate item.seller (fun us =>
                  { us with soldItems := addToSet itemId us.soldItems,
                            activeListings := pullId itemId us.activeListings })
                  (dbUpdate userId (fun us =>
                    { us with boughtItems := addToSet itemId us.boughtItems,
                              watchlist := pullId itemId us.watchlist }) db.users) })

/-- One of the awaited database writes on the purchase route's happy path,
in source order: `item.save()` (line 387), the buyer's
`findByIdAndUpdate` (line 392), the seller's `findByIdAndUpdate`
(line 403). -/
inductive PurchasePoint
  | itemSave
  | buyerUpdate
  | sellerUpdate
deriving DecidableEq

/-- The purchase route with a transient database fault injected:
identical to `buyItem` through validation, then each awaited write either
applies or — when it is the failing one — throws.  The route has no
transaction and no rollback: a throw lands in the catch at items.js line
437, which answers 500 and leaves every previously applied write in
place.  `failAt` names the first write that throws; `failAt = none` is
the fault-free execution and coincides with `buyItem`
(`buyItemFaulty_none`). -/
def buyItemFaulty (now : Nat) (db : DB) (itemId : ItemId) (userId : UserId)
    (failAt : Option PurchasePoint) : BuyOutcome × DB :=
  match findId itemId db.items with
  | none => (BuyOutcome.itemNotFound, db)
  | some item =>
    if item.status ≠ ItemStatus.available then (BuyOutcome.notAvailable, db)
    else
      match findId item.seller db.users with
      | none => (BuyOutcome.serverError, db)
      | some _ =>
        if item.seller = userId then (BuyOutcome.selfPurchase, db)
        else
          match findId userId db.users with
          | none => (BuyOutcome.buyerNotFound, db)
          | some _ =>
            if failAt = some PurchasePoint.itemSave then (BuyOutcome.serverError, db)
            else if failAt = some PurchasePoint.buyerUpdate then
              (BuyOutcome.serverError,
                { db with items := dbUpdate itemId (fun it =>
                    { it with status := ItemStatus.sold, buyer := some userId,
                              soldAt := some now }) db.items })
            else if failAt = some PurchasePoint.sellerUpdate then
              (BuyOutcome.serverError,
                { items := dbUpdate itemId (fun it =>
                    { it with status := ItemStatus.sold, buyer := some userId,
                              soldAt := some now }) db.items,
                  users := dbUpdate userId (fun us =>
                    { us with boughtItems := addToSet itemId us.boughtItems,
                              watchlist := pullId itemId us.watchlist }) db.users })
            else
              (BuyOutcome.purchased,
                { items := dbUpdate itemId (fun it =>
                    { it with status := ItemStatus.sold, buyer := some userId,
                              soldAt := some now }) db.items,
                  users := dbUpdate item.seller (fun us =>
                    { us with soldItems := addToSet itemId us.soldItems,
                              activeListings := pullId itemId us.activeListings })
                    (dbUpdate userId (fun us =>
                      { us with boughtItems := addToSet itemId us.boughtItems,
                                watchlist := pullId itemId us.watchlist }) db.users) })

/-- Outcome of the alternate mark-as-sold route `PUT /:id/sold`. -/
inductive MarkSoldOutcome
  | itemNotFound
  | alreadySold
  | ownItem
  | sold
deriving DecidableEq

/-- The alternate mark-as-sold route `PUT /:id/sold` (second items route
file, lines 1357-1401): reject only an item whose status is already
`sold` or the seller buying their own item; then set status/buyer/soldAt,
`$push` the id onto the buyer's boughtItems and the seller's soldItems
(plain push, no duplicate guard) and `$pull` it from the seller's
activeListings.  The buyer's watchlist is not touched. -/
def markSold (now : Nat) (db : DB) (itemId : ItemId) (userId : UserId) :
    MarkSoldOutcome × DB :=
  match findId itemId db.items with
  | none => (MarkSoldOutcome.itemNotFound, db)
  | some item =>
    if item.status = ItemStatus.sold then (MarkSoldOutcome.alreadySold, db)
    else if item.seller = userId then (MarkSoldOutcome.ownItem, db)
    else
      (MarkSoldOutcome.sold,
        { items := dbUpdate itemId (fun it =>
            { it with status := ItemStatus.sold, soldAt := some now,
                      buyer := some userId }) db.items,
          users := dbUpdate item.seller (fun us =>
              { us with soldItems := us.soldItems ++ [itemId],
                        activeListings := pullId itemId us.activeListings })
            (dbUpdate userId (fun us =>
              { us with boughtItems := us.boughtItems ++ [itemId] }) db.users) })

/-- Outcome of the item creation route `POST /` (items.js lines 183-352). -/
inductive CreateOutcome
  | created
  | userNotFound
deriving DecidableEq

/-- The item creation route `POST /` (items.js lines 292-321), after field
validation: save the new item with status `available`, then `$push` its id
onto the seller's activeListings; when the seller's user record cannot be
found, delete the saved item again and answer 404. -/
def createItem (db : DB) (newId : ItemId) (userId : UserId) : CreateOutcome × DB :=
  match findId userId db.users with
  | some _ =>
    (CreateOutcome.created,
      { items := db.items ++ [(newId, { seller := userId, status := ItemStatus.available })],
        users := dbUpdate userId (fun us =>
          { us with activeListings := us.activeListings ++ [newId] }) db.users })
  | none =>
    (CreateOutcome.userNotFound,
      { db with items :=
          ((db.items ++ [(newId, ({ seller := userId, status := ItemStatus.available } : Item))]).filter
            (fun p => decide (p.1 ≠ newId))) })

/-- The per-item repair step shared by `POST /fix-all-items`
(items.js lines 594-614) and `POST /sync-all` (admin.js lines 40-53):
an item with no buyer but a status other than `available` is forced back
to `available`; an item with a buyer but a status other than `sold` is
forced to `sold`, setting `soldAt` when it is missing.  The source runs
these as two successive `if` statements; they are mutually exclusive
because the first branch only fires on an item with no buyer, so the
second `if` is equivalently an `else if`. -/
def repairStatus (now : Nat) (it : Item) : Item :=
  if it.buyer = none ∧ it.status ≠ ItemStatus.available then
    { it with status := ItemStatus.available }
  else if it.buyer ≠ none ∧ it.status ≠ ItemStatus.sold then
    { it with status := ItemStatus.sold, soldAt := some (it.soldAt.getD now) }
  else it

/-- The per-user reconciliation route `POST /fix-all-items`
(items.js lines 578-650): repair the status of every item of this seller,
then recompute `activeListings` and `soldItems` from the repaired items and
`$set` both arrays on the user record.  Returns the ids of the items whose
status was fixed. -/
def fixAllItems (now : Nat) (db : DB) (u : UserId) : DB × List ItemId :=
  ({ items := db.items.map fun p =>
        if p.2.seller = u then (p.1, repairStatus now p.2) else p,
     users := dbUpdate u (fun us =>
        { us with
          activeListings :=
            ((((db.items.filter fun p => decide (p.2.seller = u)).map fun p =>
                (p.1, repairStatus now p.2)).filter fun p =>
                  decide (p.2.buyer = none ∧ p.2.status = ItemStatus.available)).map (·.1)),
          soldItems :=
            ((((db.items.filter fun p => decide (p.2.seller = u)).map fun p =>
                (p.1, repairStatus now p.2)).filter fun p =>
                  decide (p.2.buyer ≠ none ∧ p.2.status = ItemStatus.sold)).map (·.1)) })
       db.users },
   (((db.items.filter fun p => decide (p.2.seller = u)).filter fun p =>
       decide (repairStatus now p.2 ≠ p.2)).map (·.1)))

/-- The order-insensitive array comparison `arraysEqual` of admin.js
(lines 122-132): equal lengths and every element of the first contained
in the second. -/
def arraysEqual (arr1 arr2 : List Nat) : Bool :=
  decide (arr1.length = arr2.length) && arr1.all fun x => decide (x ∈ arr2)

/-- The per-user body of the admin reconciliation sweep `POST /sync-all`
(admin.js lines 25-83).  Note the order taken from the source: the
`availableItems` / `soldItems` arrays are computed from the items *before*
the status-repair loop runs, and the user's stored arrays are overwritten
only when the set comparison fails.  Returns the new state, the number of
item statuses fixed, and the number of user-reference fixes (0 or 1). -/
def syncUser (now : Nat) (db : DB) (u : UserId) : DB × Nat × Nat :=
  match findId u db.users with
  | none => (db, 0, 0)
  | some user =>
    let userItems := db.items.filter fun p => decide (p.2.seller = u)
    let availableItems :=
      (userItems.filter fun p =>
        decide (p.2.buyer = none ∧ p.2.status = ItemStatus.available)).map (·.1)
    let soldList :=
      (userItems.filter fun p =>
        decide (p.2.buyer ≠ none ∧ p.2.status = ItemStatus.sold)).map (·.1)
    let fixedCount :=
      (userItems.filter fun p => decide (repairStatus now p.2 ≠ p.2)).length
    let db1 : DB :=
      { db with items := db.items.map fun p =>
          if p.2.seller = u then (p.1, repairStatus now p.2) else p }
    let needA := ¬ arraysEqual user.activeListings availableItems = true
    let needS := ¬ arraysEqual user.soldItems soldList = true
    if needA ∨ needS then
      (⟨db1.items, dbUpdate u (fun us =>
          { us with activeListings := availableItems, soldItems := soldList }) db1.users⟩,
        fixedCount, 1)
    else (db1, fixedCount, 0)

/-! ## Distance estimator (items.js lines 713-1041) -/

/-- Does `needle` occur at the start of `hay`?  (helper for `strIncludes`) -/
def charsStart : List Char → List Char → Bool
  | [], _ => true
  | _ :: _, [] => false
  | a :: as, b :: bs => a == b && charsStart as bs

/-- Does `needle` occur anywhere inside `hay`? -/
def charsContains : List Char → List Char → Bool
  | needle, [] => charsStart needle []
  | needle, b :: bs => charsStart needle (b :: bs) || charsContains needle bs

/-- JavaScript `s.includes(sub)`. -/
def strIncludes (s sub : String) : Bool :=
  charsContains sub.data s.data

/-- One entry of a pincode lookup table: coordinates and a region label. -/
structure Coord where
  lat : ℚ
  lon : ℚ
  region : String
deriving DecidableEq

/-- First table entry stored under the given string key, if any. -/
def findKey (k : String) : List (String × Coord) → Option Coord
  | [] => none
  | p :: rest => if p.1 = k then some p.2 else findKey k rest

/-- The exact six-digit pincode table `pincodeCoordinates`
(items.js lines 759-772). -/
def pincodeCoordinates : List (String × Coord) :=
  [ ("110001", ⟨28.6139, 77.2090, "Delhi"⟩),
    ("400001", ⟨19.0760, 72.8777, "Mumbai"⟩),
    ("560001", ⟨12.9716, 77.5946, "Bengaluru"⟩),
    ("600001", ⟨13.0827, 80.2707, "Chennai"⟩),
    ("500001", ⟨17.3850, 78.4867, "Hyderabad"⟩),
    ("700001", ⟨22.5726, 88.3639, "Kolkata"⟩) ]

/-- The detailed table `detailedRegionMap` (items.js lines 790-872),
looked up with the first three digits of the pincode.  The six-digit keys
are reproduced faithfully from the source even though a three-character
lookup string can never match them. -/
def detailedRegionMap : List (String × Coord) :=
  [ ("110", ⟨28.6139, 77.2090, "Delhi"⟩),
    ("120", ⟨28.5355, 77.3910, "Noida"⟩),
    ("121", ⟨28.6692, 77.4538, "Ghaziabad"⟩),
    ("122", ⟨28.4595, 77.0266, "Gurugram"⟩),
    ("201", ⟨28.6304, 77.2177, "Greater Noida"⟩),
    ("400", ⟨19.0760, 72.8777, "Mumbai"⟩),
    ("400001", ⟨18.9387, 72.8353, "Mumbai South"⟩),
    ("400002", ⟨18.9520, 72.8327, "Mumbai South"⟩),
    ("400003", ⟨18.9631, 72.8308, "Mumbai South"⟩),
    ("400004", ⟨18.9548, 72.8224, "Mumbai South"⟩),
    ("400005", ⟨18.9379, 72.8276, "Mumbai South"⟩),
    ("400008", ⟨18.9568, 72.8111, "Mumbai South"⟩),
    ("400009", ⟨18.9647, 72.7993, "Mumbai South"⟩),
    ("400010", ⟨18.9764, 72.8156, "Mumbai South"⟩),
    ("400011", ⟨18.9622, 72.8359, "Mumbai South"⟩),
    ("400012", ⟨18.9673, 72.8440, "Mumbai South"⟩),
    ("400018", ⟨19.0101, 72.8498, "Mumbai Central"⟩),
    ("400020", ⟨19.0283, 72.8545, "Mumbai Central"⟩),
    ("400022", ⟨19.0389, 72.8293, "Mumbai Central"⟩),
    ("400025", ⟨19.0499, 72.8176, "Mumbai West"⟩),
    ("400026", ⟨19.0628, 72.8308, "Mumbai West"⟩),
    ("400028", ⟨19.0773, 72.8296, "Mumbai West"⟩),
    ("400030", ⟨19.0883, 72.8311, "Mumbai West"⟩),
    ("400050", ⟨19.0968, 72.8517, "Mumbai West"⟩),
    ("400051", ⟨19.0643, 72.8396, "Mumbai West"⟩),
    ("400052", ⟨19.1246, 72.8361, "Mumbai Northwest"⟩),
    ("400053", ⟨19.1310, 72.8298, "Mumbai Northwest"⟩),
    ("400054", ⟨19.1462, 72.8296, "Mumbai Northwest"⟩),
    ("400055", ⟨19.1505, 72.8554, "Mumbai Northwest"⟩),
    ("400056", ⟨19.1190, 72.8816, "Mumbai Northwest"⟩),
    ("400060", ⟨19.1755, 72.8370, "Mumbai Northwest"⟩),
    ("400063", ⟨19.2006, 72.8406, "Mumbai Northwest"⟩),
    ("400064", ⟨19.2065, 72.8629, "Mumbai Northwest"⟩),
    ("400065", ⟨19.2305, 72.8567, "Mumbai Northwest"⟩),
    ("400066", ⟨19.2502, 72.8486, "Mumbai Northwest"⟩),
    ("400070", ⟨19.0903, 72.8894, "Mumbai Northeast"⟩),
    ("400071", ⟨19.0508, 72.9073, "Mumbai Northeast"⟩),
    ("400072", ⟨19.0635, 72.9137, "Mumbai Northeast"⟩),
    ("400075", ⟨19.1149, 72.9070, "Mumbai Northeast"⟩),
    ("400076", ⟨19.1331, 72.9425, "Mumbai Northeast"⟩),
    ("400078", ⟨19.0435, 72.9251, "Mumbai Northeast"⟩),
    ("400080", ⟨19.0625, 72.9988, "Navi Mumbai"⟩),
    ("400081", ⟨19.0301, 73.0297, "Navi Mumbai"⟩),
    ("400082", ⟨19.0467, 73.0153, "Navi Mumbai"⟩),
    ("400083", ⟨19.0154, 73.0410, "Navi Mumbai"⟩),
    ("400086", ⟨19.0048, 73.0297, "Navi Mumbai"⟩),
    ("400087", ⟨18.9901, 73.0365, "Navi Mumbai"⟩),
    ("400088", ⟨18.9720, 73.0566, "Navi Mumbai"⟩),
    ("401", ⟨19.2183, 72.9781, "Thane"⟩),
    ("401107", ⟨19.1943, 72.9615, "Thane"⟩),
    ("402", ⟨18.9068, 72.8164, "Navi Mumbai"⟩),
    ("560", ⟨12.9716, 77.5946, "Bengaluru Central"⟩),
    ("561", ⟨13.0827, 77.7085, "Bengaluru East"⟩),
    ("562", ⟨13.1986, 77.7066, "Bengaluru North"⟩),
    ("600", ⟨13.0827, 80.2707, "Chennai Central"⟩),
    ("601", ⟨13.1231, 80.1127, "Chennai West"⟩),
    ("602", ⟨12.9217, 80.1152, "Chennai South"⟩),
    ("603", ⟨13.2331, 80.3047, "Chennai North"⟩),
    ("500", ⟨17.3850, 78.4867, "Hyderabad"⟩),
    ("501", ⟨17.5451, 78.5715, "Secunderabad"⟩),
    ("700", ⟨22.5726, 88.3639, "Kolkata"⟩),
    ("701", ⟨22.6920, 88.3697, "Kolkata North"⟩),
    ("411", ⟨18.5204, 73.8567, "Pune"⟩),
    ("412", ⟨18.4088, 73.9325, "Pimpri-Chinchwad"⟩),
    ("380", ⟨23.0225, 72.5714, "Ahmedabad"⟩),
    ("382", ⟨23.1215, 72.5714, "Gandhinagar"⟩) ]

/-- The coarse two-digit table `regionMap` (items.js lines 882-916). -/
def regionMap : List (String × Coord) :=
  [ ("11", ⟨28.6139, 77.2090, "Delhi NCR"⟩),
    ("12", ⟨28.4595, 77.0266, "Delhi NCR"⟩),
    ("20", ⟨28.6304, 77.2177, "UP (West)"⟩),
    ("40", ⟨19.0760, 72.8777, "Mumbai Region"⟩),
    ("41", ⟨18.5204, 73.8567, "Pune Region"⟩),
    ("42", ⟨19.9975, 73.7898, "Nashik"⟩),
    ("43", ⟨21.1458, 79.0882, "Nagpur"⟩),
    ("50", ⟨17.3850, 78.4867, "Telangana"⟩),
    ("51", ⟨16.5062, 80.6480, "Andhra Pradesh"⟩),
    ("53", ⟨13.6288, 79.4192, "Southern AP"⟩),
    ("56", ⟨12.9716, 77.5946, "Karnataka"⟩),
    ("57", ⟨15.3173, 76.3422, "Northern Karnataka"⟩),
    ("58", ⟨14.4673, 75.9218, "Central Karnataka"⟩),
    ("60", ⟨13.0827, 80.2707, "Tamil Nadu"⟩),
    ("62", ⟨9.9252, 78.1198, "Southern TN"⟩),
    ("64", ⟨11.0168, 76.9558, "Western TN"⟩),
    ("70", ⟨22.5726, 88.3639, "West Bengal"⟩),
    ("71", ⟨26.7271, 88.3953, "Northern WB"⟩),
    ("38", ⟨23.0225, 72.5714, "Gujarat"⟩),
    ("39", ⟨21.1702, 72.8311, "Southern Gujarat"⟩),
    ("30", ⟨26.9124, 75.7873, "Rajasthan"⟩),
    ("33", ⟨30.9010, 75.8573, "Punjab"⟩),
    ("34", ⟨31.1048, 77.1734, "Himachal Pradesh"⟩),
    ("18", ⟨23.3441, 85.3096, "Jharkhand"⟩),
    ("80", ⟨25.5941, 85.1376, "Bihar"⟩),
    ("85", ⟨20.2961, 85.8245, "Odisha"⟩) ]

/-- The tiered coordinate resolver `getPincodeCoordinates`
(items.js lines 776-919): exact six-digit match, then the first three
digits in the detailed table, then the first two digits in the coarse
table, then the fixed Central India centroid. -/
def getPincodeCoordinates (pincode : String) : Coord :=
  match findKey pincode pincodeCoordinates with
  | some c => c
  | none =>
    match findKey (pincode.take 3) detailedRegionMap with
    | some c => c
    | none =>
      match findKey (pincode.take 2) regionMap with
      | some c => c
      | none => ⟨20.5937, 78.9629, "Central India"⟩

/-- Degrees to radians, as in `toRadians` (items.js lines 735-737). -/
noncomputable def toRadians (d : ℝ) : ℝ := d * (Real.pi / 180)

/-- JavaScript `Math.atan2` on real inputs. -/
noncomputable def jsAtan2 (y x : ℝ) : ℝ :=
  if 0 < x then Real.arctan (y / x)
  else if x < 0 ∧ 0 ≤ y then Real.arctan (y / x) + Real.pi
  else if x < 0 ∧ y < 0 then Real.arctan (y / x) - Real.pi
  else if x = 0 ∧ 0 < y then Real.pi / 2
  else if x = 0 ∧ y < 0 then -(Real.pi / 2)
  else 0

/-- The intermediate value `a` of the haversine formula
(items.js lines 746-749). -/
noncomputable def haversineA (lat1 lon1 lat2 lon2 : ℚ) : ℝ :=
  Real.sin (toRadians ((lat2 : ℝ) - (lat1 : ℝ)) / 2) *
      Real.sin (toRadians ((lat2 : ℝ) - (lat1 : ℝ)) / 2) +
    Real.cos (toRadians (lat1 : ℝ)) * Real.cos (toRadians (lat2 : ℝ)) *
      Real.sin (toRadians ((lon2 : ℝ) - (lon1 : ℝ)) / 2) *
      Real.sin (toRadians ((lon2 : ℝ) - (lon1 : ℝ)) / 2)

/-- The haversine great-circle distance (items.js lines 714-755), with the
source's early return of 0 for identical coordinates and Earth radius
6371 km. -/
noncomputable def haversine (lat1 lon1 lat2 lon2 : ℚ) : ℝ :=
  if lat1 = lat2 ∧ lon1 = lon2 then 0
  else
    6371 * (2 * jsAtan2 (Real.sqrt (haversineA lat1 lon1 lat2 lon2))
      (Real.sqrt (1 - haversineA lat1 lon1 lat2 lon2)))

/-- Is the region one of the major-metro names (items.js lines 953-958)? -/
def isMetroRegion (r : String) : Bool :=
  strIncludes r "Mumbai" || strIncludes r "Delhi" || strIncludes r "Bengaluru" ||
    strIncludes r "Chennai" || strIncludes r "Kolkata" || strIncludes r "Hyderabad"

/-- The same-region adjustment block (items.js lines 943-966): identical
pincodes pin the distance to 1 km; otherwise a raw distance below 5 km in
the same region is clamped to a 2 km (metro) or 3 km minimum. -/
noncomputable def regionStage (fromPincode toPincode : String) (f t : Coord)
    (d : ℝ) : ℝ × String :=
  if f.region = t.region then
    if fromPincode = toPincode then (1, "(same area)")
    else if d < 5 then
      if isMetroRegion f.region then (max 2 d, "(same city)")
      else (max 3 d, "(same region)")
    else (d, "")
  else (d, "")

/-- The guard of the Mumbai special-handling block (items.js lines 969-973). -/
def mumbaiCond (f t : String) : Bool :=
  (strIncludes f "Mumbai" && strIncludes t "Mumbai") ||
    (strIncludes f "Navi Mumbai" && strIncludes t "Mumbai") ||
    (strIncludes f "Mumbai" && strIncludes t "Navi Mumbai") ||
    (strIncludes f "Thane" && strIncludes t "Mumbai") ||
    (strIncludes f "Mumbai" && strIncludes t "Thane")

/-- The South-Mumbai-to-suburb rule (items.js lines 979-980). -/
def southCond (f t : String) : Bool :=
  (strIncludes f "Mumbai South" && !(strIncludes t "Mumbai South")) ||
    (!(strIncludes f "Mumbai South") && strIncludes t "Mumbai South")

/-- The cross-city rule (items.js lines 986-989). -/
def crossCond (f t : String) : Bool :=
  (strIncludes f "Mumbai West" && strIncludes t "Mumbai Northeast") ||
    (strIncludes f "Mumbai Northeast" && strIncludes t "Mumbai West") ||
    (strIncludes f "Mumbai Northwest" && strIncludes t "Mumbai Northeast") ||
    (strIncludes f "Mumbai Northeast" && strIncludes t "Mumbai Northwest")

/-- The Mumbai-to-Navi-Mumbai rule (items.js lines 995-996). -/
def naviCond (f t : String) : Bool :=
  (strIncludes f "Mumbai" && strIncludes t "Navi Mumbai") ||
    (strIncludes f "Navi Mumbai" && strIncludes t "Mumbai")

/-- The Mumbai-to-Thane rule (items.js lines 1002-1003). -/
def thaneCond (f t : String) : Bool :=
  (strIncludes f "Mumbai" && strIncludes t "Thane") ||
    (strIncludes f "Thane" && strIncludes t "Mumbai")

/-- The Mumbai adjustment block (items.js lines 968-1007): the first
matching rule multiplies the running distance and replaces the note. -/
noncomputable def mumbaiStage (f t : String) (p : ℝ × String) : ℝ × String :=
  if mumbaiCond f t then
    if southCond f t then (p.1 * 1.4, "(Mumbai traffic adjustment)")
    else if crossCond f t then (p.1 * 1.5, "(Mumbai cross-city adjustment)")
    else if naviCond f t then (p.1 * 1.3, "(Mumbai-Navi Mumbai route)")
    else if thaneCond f t then (p.1 * 1.25, "(Mumbai-Thane route)")
    else p
  else p

/-- JavaScript `Math.round` on real inputs: floor of `x + 1/2`. -/
noncomputable def jsRound (x : ℝ) : ℤ := ⌊x + 1 / 2⌋

/-- The rounding policy (items.js lines 1009-1015): above 100 km round to
the nearest 5 km, otherwise round to one decimal place. -/
noncomputable def roundStage (d : ℝ) : ℝ :=
  if 100 < d then (jsRound (d / 5) : ℝ) * 5 else (jsRound (d * 10) : ℝ) / 10

/-- The result shape of `calculateDistance` (items.js lines 1017-1031);
`exact` is the unrounded geometric distance reported as `exactDistance`. -/
structure DistResult where
  distance : ℝ
  exact : ℝ
  note : String
  fromC : Coord
  toC : Coord

/-- The distance estimator `calculateDistance` (items.js lines 922-1041):
resolve both pincodes, take the haversine distance, apply the same-region
stage, then the Mumbai stage, then the rounding policy. -/
noncomputable def calculateDistance (fromPincode toPincode : String) : DistResult :=
  { distance := roundStage
      (mumbaiStage (getPincodeCoordinates fromPincode).region
        (getPincodeCoordinates toPincode).region
        (regionStage fromPincode toPincode
          (getPincodeCoordinates fromPincode) (getPincodeCoordinates toPincode)
          (haversine (getPincodeCoordinates fromPincode).lat
            (getPincodeCoordinates fromPincode).lon
            (getPincodeCoordinates toPincode).lat
            (getPincodeCoordinates toPincode).lon))).1
    exact := haversine (getPincodeCoordinates fromPincode).lat
      (getPincodeCoordinates fromPincode).lon
      (getPincodeCoordinates toPincode).lat
      (getPincodeCoordinates toPincode).lon
    note := (mumbaiStage (getPincodeCoordinates fromPincode).region
        (getPincodeCoordinates toPincode).region
        (regionStage fromPincode toPincode
          (getPincodeCoordinates fromPincode) (getPincodeCoordinates toPincode)
          (haversine (getPincodeCoordinates fromPincode).lat
            (getPincodeCoordinates fromPincode).lon
            (getPincodeCoordinates toPincode).lat
            (getPincodeCoordinates toPincode).lon))).2
    fromC := getPincodeCoordinates fromPincode
    toC := getPincodeCoordinates toPincode }

/-- The boundary layer's pincode validation (items.js lines 689-695):
exactly six ASCII digits. -/
def validPincode (p : String) : Bool :=
  decide (p.length = 6) && p.data.all Char.isDigit

/-! ## Helper lemmas about the database embedding -/

theorem findId_cons {β : Type} (k : Nat) (p : Nat × β) (l : List (Nat × β)) :
    findId k (p :: l) = if p.1 = k then some p.2 else findId k l := rfl

theorem findId_dbUpdate {β : Type} (k k' : Nat) (f : β → β) (l : List (Nat × β)) :
    findId k (dbUpdate k' f l) =
      if k = k' then (findId k l).map f else findId k l := by
  induction l with
  | nil => by_cases h : k = k' <;> simp [findId, dbUpdate, h]
  | cons p rest ih =>
    simp only [dbUpdate, List.map_cons] at ih ⊢
    by_cases h1 : p.1 = k'
    · by_cases h2 : k = k'
      · subst h2
        simp [findId_cons, h1]
      · have h2' : ¬ k' = k := fun hh => h2 hh.symm
        simp [findId_cons, h1, h2, h2', ih]
    · by_cases h2 : k = k'
      · subst h2
        simp [findId_cons, h1, ih]
      · simp [findId_cons, h1, h2, ih]

theorem findId_none_of_keys {β : Type} (k : Nat) (l : List (Nat × β))
    (h : findId k l = none) : ∀ p ∈ l, p.1 ≠ k := by
  induction l with
  | nil => intro p hp; cases hp
  | cons q rest ih =>
    rw [findId_cons] at h
    by_cases hq : q.1 = k
    · rw [if_pos hq] at h; cases h
    · rw [if_neg hq] at h
      intro p hp
      rcases List.mem_cons.mp hp with rfl | hmem
      · exact hq
      · exact ih h p hmem

theorem filter_ne_of_findId_none {β : Type} (k : Nat) (l : List (Nat × β))
    (h : findId k l = none) :
    (l.filter fun p => decide (p.1 ≠ k)) = l := by
  induction l with
  | nil => rfl
  | cons q rest ih =>
    rw [findId_cons] at h
    by_cases hq : q.1 = k
    · rw [if_pos hq] at h; cases h
    · rw [if_neg hq] at h
      rw [List.filter_cons, if_pos (decide_eq_true hq), ih h]

theorem mem_addToSet (x : Nat) (l : List Nat) : x ∈ addToSet x l := by
  unfold addToSet
  by_cases h : x ∈ l <;> simp [h]

theorem addToSet_of_mem {x : Nat} {l : List Nat} (h : x ∈ l) : addToSet x l = l := by
  simp [addToSet, h]

theorem not_mem_pullId (x : Nat) (l : List Nat) : x ∉ pullId x l := by
  intro h
  simp only [pullId, List.mem_filter, decide_eq_true_eq] at h
  exact h.2 rfl

theorem repairStatus_buyer (now : Nat) (it : Item) :
    (repairStatus now it).buyer = it.buyer := by
  unfold repairStatus
  split_ifs <;> rfl

theorem repairStatus_seller (now : Nat) (it : Item) :
    (repairStatus now it).seller = it.seller := by
  unfold repairStatus
  split_ifs <;> rfl

theorem repairStatus_idem (now now' : Nat) (it : Item) :
    repairStatus now' (repairStatus now it) = repairStatus now it := by
  unfold repairStatus
  rcases hb : it.buyer with _ | b <;> rcases hs : it.status <;> simp [hb, hs]

/-! ## Generic list lemmas used by the reconciliation proofs -/

theorem listMapCongr {α β : Type} {l : List α} {f g : α → β}
    (h : ∀ a ∈ l, f a = g a) : l.map f = l.map g := by
  induction l with
  | nil => rfl
  | cons a rest ih =>
    simp only [List.map_cons]
    rw [h a (by simp), ih fun b hb => h b (by simp [hb])]

theorem listMapId {α : Type} {l : List α} {f : α → α}
    (h : ∀ a ∈ l, f a = a) : l.map f = l := by
  induction l with
  | nil => rfl
  | cons a rest ih =>
    simp only [List.map_cons]
    rw [h a (by simp), ih fun b hb => h b (by simp [hb])]

theorem listFilterMapComm {α : Type} (l : List α) (g : α → α) (p : α → Bool)
    (h : ∀ a, p (g a) = p a) :
    (l.map g).filter p = (l.filter p).map g := by
  induction l with
  | nil => rfl
  | cons a rest ih =>
    simp only [List.map_cons, List.filter_cons, h a]
    by_cases hp : p a = true
    · simp [hp, ih]
    · simp only [Bool.not_eq_true] at hp
      simp [hp, ih]

theorem listFilterEqNil {α : Type} {l : List α} {p : α → Bool}
    (h : ∀ a ∈ l, p a = false) : l.filter p = [] := by
  induction l with
  | nil => rfl
  | cons a rest ih =>
    simp [List.filter_cons, h a (by simp), ih fun b hb => h b (by simp [hb])]

theorem dbUpdate_comp {β : Type} (k : Nat) (f g : β → β) (l : List (Nat × β)) :
    dbUpdate k f (dbUpdate k g l) = dbUpdate k (fun x => f (g x)) l := by
  unfold dbUpdate
  rw [List.map_map]
  apply listMapCongr
  intro p _
  by_cases h : p.1 = k <;> simp [h]

/-- The fault-free execution of the fault-injected purchase model is the
purchase route itself. -/
theorem buyItemFaulty_none (now : Nat) (db : DB) (i : ItemId) (u : UserId) :
    buyItemFaulty now db i u none = buyItem now db i u := by
  unfold buyItemFaulty buyItem
  cases findId i db.items with
  | none => rfl
  | some item =>
    by_cases hs : item.status ≠ ItemStatus.available
    · simp [hs]
    · cases findId item.seller db.users with
      | none => simp [hs]
      | some _ =>
        by_cases hsel : item.seller = u
        · simp [hs, hsel]
        · cases findId u db.users with
          | none => simp [hs, hsel]
          | some _ => simp [hs, hsel]

/-! ## Purchase claims -/

/-- Claim C2: for every successful purchase of an available item by a buyer
distinct from the seller, the operation adds the item id to the buyer's
boughtItems with set semantics (no duplicate appears even if the id was
already present), removes the item id from the buyer's watchlist, adds the
item id to the seller's soldItems with set semantics, and removes the item
id from the seller's activeListings. -/
theorem claim_C2_purchase_reference_sync
    (now : Nat) (db : DB) (i : ItemId) (u : UserId) (it : Item) (bu se : User)
    (hit : findId i db.items = some it)
    (hstatus : it.status = ItemStatus.available)
    (hself : it.seller ≠ u)
    (hbu : findId u db.users = some bu)
    (hse : findId it.seller db.users = some se) :
    (buyItem now db i u).1 = BuyOutcome.purchased ∧
    (∃ bu', findId u (buyItem now db i u).2.users = some bu' ∧
      i ∈ bu'.boughtItems ∧
      (i ∈ bu.boughtItems → bu'.boughtItems = bu.boughtItems) ∧
      i ∉ bu'.watchlist) ∧
    (∃ se', findId it.seller (buyItem now db i u).2.users = some se' ∧
      i ∈ se'.soldItems ∧
      (i ∈ se.soldItems → se'.soldItems = se.soldItems) ∧
      i ∉ se'.activeListings) := by
  have hb : buyItem now db i u =
      (BuyOutcome.purchased,
        { items := dbUpdate i (fun x =>
            { x with status := ItemStatus.sold, buyer := some u,
                     soldAt := some now }) db.items,
          users := dbUpdate it.seller (fun us =>
            { us with soldItems := addToSet i us.soldItems,
                      activeListings := pullId i us.activeListings })
            (dbUpdate u (fun us =>
              { us with boughtItems := addToSet i us.boughtItems,
                        watchlist := pullId i us.watchlist }) db.users) }) := by
    simp [buyItem, hit, hbu, hse, hstatus, hself]
  have husers : (buyItem now db i u).2.users =
      dbUpdate it.seller (fun us =>
        { us with soldItems := addToSet i us.soldItems,
                  activeListings := pullId i us.activeListings })
        (dbUpdate u (fun us =>
          { us with boughtItems := addToSet i us.boughtItems,
                    watchlist := pullId i us.watchlist }) db.users) := by
    rw [hb]
  refine ⟨by rw [hb], ?_, ?_⟩
  · refine ⟨{ bu with boughtItems := addToSet i bu.boughtItems, watchlist := pullId i bu.watchlist }, ?_, ?_, ?_, ?_⟩
    · rw [husers, findId_dbUpdate, if_neg (fun hh => hself hh.symm),
        findId_dbUpdate, if_pos rfl, hbu]
      rfl
    · exact mem_addToSet i bu.boughtItems
    · exact fun hmem => addToSet_of_mem hmem
    · exact not_mem_pullId i bu.watchlist
  · refine ⟨{ se with soldItems := addToSet i se.soldItems, activeListings := pullId i se.activeListings }, ?_, ?_, ?_, ?_⟩
    · rw [husers, findId_dbUpdate, if_pos rfl, findId_dbUpdate, if_neg hself, hse]
      rfl
    · exact mem_addToSet i se.soldItems
    · exact fun hmem => addToSet_of_mem hmem
    · exact not_mem_pullId i se.activeListings

/-- A concrete state for the C2 witness: item 1 is listed by seller 0 and
available; buyer 2 already watchlisted item 1 and already owns item 7. -/
def dbC2 : DB :=
  { items := [(1, ⟨0, none, ItemStatus.available, none⟩)],
    users := [(0, {}), (2, { watchlist := [1], boughtItems := [7] })] }

theorem claim_C2_witness :
    findId 1 dbC2.items = some ⟨0, none, ItemStatus.available, none⟩ ∧
    (buyItem 9 dbC2 1 2).1 = BuyOutcome.purchased :=
  ⟨by decide,
    (claim_C2_purchase_reference_sync 9 dbC2 1 2
      ⟨0, none, ItemStatus.available, none⟩
      { watchlist := [1], boughtItems := [7] } {}
      (by decide) (by decide) (by decide) (by decide) (by decide)).1⟩

/-- A concrete state for claim C1: item 1 is available, its seller 0 and
the buyer 2 both have user records, so the purchase passes validation. -/
def dbC1 : DB :=
  { items := [(1, ⟨0, none, ItemStatus.available, none⟩)],
    users := [(0, {}), (2, {})] }

/-- Claim C1 counterexample: when the buyer-side reference update throws
after `item.save()` (a transient database error on the awaited
`findByIdAndUpdate`), the route answers 500 and the final state keeps
item 1 `sold` while neither the buyer's boughtItems nor the seller's
soldItems was updated — the item is never compensated back to
`available`. -/
theorem claim_C1_counterexample :
    (buyItemFaulty 5 dbC1 1 2 (some PurchasePoint.buyerUpdate)).1 =
      BuyOutcome.serverError ∧
    (findId 1 (buyItemFaulty 5 dbC1 1 2
      (some PurchasePoint.buyerUpdate)).2.items).map Item.status =
      some ItemStatus.sold ∧
    (findId 2 (buyItemFaulty 5 dbC1 1 2
      (some PurchasePoint.buyerUpdate)).2.users).map User.boughtItems =
      some [] ∧
    (findId 0 (buyItemFaulty 5 dbC1 1 2
      (some PurchasePoint.buyerUpdate)).2.users).map User.soldItems =
      some [] ∧
    ItemStatus.sold ≠ ItemStatus.available := by decide

/-- Claim C1 (amended): the purchase route is not one failure domain — it
has no compensation.  When the buyer-side reference update throws after
the item mutation, the route answers 500, the item stays `sold` with the
buyer recorded, and no user record was touched; when the seller-side
update throws, the item stays `sold` and the seller's record is
unchanged.  In both cases a caller subsequently observes a sold item
whose reference lists were not updated; the item is never reverted to
`available`. -/
theorem claim_C1_amended_no_compensation
    (now : Nat) (db : DB) (i : ItemId) (u : UserId) (it : Item) (bu se : User)
    (hit : findId i db.items = some it)
    (hstatus : it.status = ItemStatus.available)
    (hself : it.seller ≠ u)
    (hbu : findId u db.users = some bu)
    (hse : findId it.seller db.users = some se) :
    ((buyItemFaulty now db i u (some PurchasePoint.buyerUpdate)).1 =
        BuyOutcome.serverError ∧
      findId i (buyItemFaulty now db i u
        (some PurchasePoint.buyerUpdate)).2.items =
        some { it with status := ItemStatus.sold, buyer := some u,
                       soldAt := some now } ∧
      (buyItemFaulty now db i u (some PurchasePoint.buyerUpdate)).2.users =
        db.users) ∧
    ((buyItemFaulty now db i u (some PurchasePoint.sellerUpdate)).1 =
        BuyOutcome.serverError ∧
      findId i (buyItemFaulty now db i u
        (some PurchasePoint.sellerUpdate)).2.items =
        some { it with status := ItemStatus.sold, buyer := some u,
                       soldAt := some now } ∧
      findId it.seller (buyItemFaulty now db i u
        (some PurchasePoint.sellerUpdate)).2.users = some se) := by
  have hb1 : buyItemFaulty now db i u (some PurchasePoint.buyerUpdate) =
      (BuyOutcome.serverError,
        { db with items := dbUpdate i (fun x =>
            { x with status := ItemStatus.sold, buyer := some u,
                     soldAt := some now }) db.items }) := by
    simp [buyItemFaulty, hit, hbu, hse, hstatus, hself]
  have hb2 : buyItemFaulty now db i u (some PurchasePoint.sellerUpdate) =
      (BuyOutcome.serverError,
        { items := dbUpdate i (fun x =>
            { x with status := ItemStatus.sold, buyer := some u,
                     soldAt := some now }) db.items,
          users := dbUpdate u (fun us =>
            { us with boughtItems := addToSet i us.boughtItems,
                      watchlist := pullId i us.watchlist }) db.users }) := by
    simp [buyItemFaulty, hit, hbu, hse, hstatus, hself]
  refine ⟨⟨by rw [hb1], ?_, by rw [hb1]⟩, ⟨by rw [hb2], ?_, ?_⟩⟩
  · have hitems : (buyItemFaulty now db i u
        (some PurchasePoint.buyerUpdate)).2.items =
        dbUpdate i (fun x =>
          { x with status := ItemStatus.sold, buyer := some u,
                   soldAt := some now }) db.items := by
      rw [hb1]
    rw [hitems, findId_dbUpdate, if_pos rfl, hit]
    rfl
  · have hitems : (buyItemFaulty now db i u
        (some PurchasePoint.sellerUpdate)).2.items =
        dbUpdate i (fun x =>
          { x with status := ItemStatus.sold, buyer := some u,
                   soldAt := some now }) db.items := by
      rw [hb2]
    rw [hitems, findId_dbUpdate, if_pos rfl, hit]
    rfl
  · have husers : (buyItemFaulty now db i u
        (some PurchasePoint.sellerUpdate)).2.users =
        dbUpdate u (fun us =>
          { us with boughtItems := addToSet i us.boughtItems,
                    watchlist := pullId i us.watchlist }) db.users := by
      rw [hb2]
    rw [husers, findId_dbUpdate, if_neg hself, hse]

theorem claim_C1_amended_witness :
    findId 1 dbC1.items = some ⟨0, none, ItemStatus.available, none⟩ ∧
    (buyItemFaulty 5 dbC1 1 2 (some PurchasePoint.buyerUpdate)).1 =
      BuyOutcome.serverError :=
  ⟨by decide,
    (claim_C1_amended_no_compensation 5 dbC1 1 2
      ⟨0, none, ItemStatus.available, none⟩ {} {}
      (by decide) (by decide) (by decide) (by decide) (by decide)).1.1⟩

/-- The error taxonomy of the spec for the purchase validation, plus
`serverError` for the route's catch-all 500 (outside the spec's
taxonomy: the uncaught TypeError when the populated seller is null). -/
inductive PurchaseErrKind
  | notFound
  | notAvailable
  | selfPurchase
  | serverError
deriving DecidableEq

/-- Maps a purchase outcome to the error taxonomy (both the missing item
and the missing buyer are reported as 404 NotFound by the route). -/
def buyErrKind : BuyOutcome → Option PurchaseErrKind
  | BuyOutcome.itemNotFound => some PurchaseErrKind.notFound
  | BuyOutcome.buyerNotFound => some PurchaseErrKind.notFound
  | BuyOutcome.notAvailable => some PurchaseErrKind.notAvailable
  | BuyOutcome.selfPurchase => some PurchaseErrKind.selfPurchase
  | BuyOutcome.serverError => some PurchaseErrKind.serverError
  | BuyOutcome.purchased => none

/-- Modelled from the SPEC's words, for comparison with `buyItem` (claim C3):
validation checks in the claimed order — item exists (else NotFound), buyer
exists (else NotFound), item.status == available (else NotAvailable),
buyer ≠ seller (else SelfPurchase); the first failing check decides. -/
def specClaimedValidation (db : DB) (i : ItemId) (u : UserId) :
    Option PurchaseErrKind :=
  match findId i db.items with
  | none => some PurchaseErrKind.notFound
  | some item =>
    match findId u db.users with
    | none => some PurchaseErrKind.notFound
    | some _ =>
      if item.status ≠ ItemStatus.available then some PurchaseErrKind.notAvailable
      else if item.seller = u then some PurchaseErrKind.selfPurchase
      else none

/-- A concrete state for claim C3: item 1 exists but is already sold, and
the requesting buyer 3 has no user record. -/
def dbC3 : DB :=
  { items := [(1, ⟨0, none, ItemStatus.sold, none⟩)], users := [] }

/-- Claim C3 counterexample: on `dbC3` the route answers NotAvailable (it
checks the status before looking the buyer up), while the claimed order
(buyer existence second) would answer NotFound. -/
theorem claim_C3_counterexample :
    buyErrKind (buyItem 0 dbC3 1 3).1 = some PurchaseErrKind.notAvailable ∧
    specClaimedValidation dbC3 1 3 = some PurchaseErrKind.notFound ∧
    some PurchaseErrKind.notAvailable ≠ some PurchaseErrKind.notFound := by
  decide

/-- The validation order actually implemented by the purchase route:
item exists (else NotFound), status == available (else NotAvailable),
the populated seller record resolves (else the `item.seller._id` access
throws and the route answers a 500 ServerError), buyer ≠ seller (else
SelfPurchase), buyer exists (else NotFound). -/
def amendedValidation (db : DB) (i : ItemId) (u : UserId) :
    Option PurchaseErrKind :=
  match findId i db.items with
  | none => some PurchaseErrKind.notFound
  | some item =>
    if item.status ≠ ItemStatus.available then some PurchaseErrKind.notAvailable
    else
      match findId item.seller db.users with
      | none => some PurchaseErrKind.serverError
      | some _ =>
        if item.seller = u then some PurchaseErrKind.selfPurchase
        else
          match findId u db.users with
          | none => some PurchaseErrKind.notFound
          | some _ => none

/-- Claim C3 (amended): the purchase operation validates in the order item
exists (NotFound), item.status == available (NotAvailable), the populated
seller resolves (else a 500 ServerError from the thrown TypeError —
outside the spec's taxonomy), buyer ≠ seller (SelfPurchase), buyer exists
(NotFound); for every input the error returned is that of the first check
in this order that fails. -/
theorem claim_C3_amended_validation_order
    (now : Nat) (db : DB) (i : ItemId) (u : UserId) :
    buyErrKind (buyItem now db i u).1 = amendedValidation db i u := by
  unfold buyItem amendedValidation
  cases findId i db.items with
  | none => rfl
  | some item =>
    by_cases hs : item.status ≠ ItemStatus.available
    · simp [hs, buyErrKind]
    · cases hres : findId item.seller db.users with
      | none => simp [hs, hres, buyErrKind]
      | some _ =>
        by_cases hsel : item.seller = u
        · rw [hsel] at hres
          simp [hs, hsel, hres, buyErrKind]
        · cases hu : findId u db.users with
          | none => simp [hs, hres, hsel, hu, buyErrKind]
          | some _ => simp [hs, hres, hsel, hu, buyErrKind]

/-! ## Repair and alternate-path claims -/

/-- Claim C8: repairStatus is an idempotent correction that, for every item:
if buyer is set and status ≠ sold, forces status=sold and sets soldAt when
it is missing (keeping it otherwise); if buyer is unset and status ≠
available, forces status=available; and it never sets a buyer on any item. -/
theorem claim_C8_repairStatus (now now' : Nat) (it : Item) :
    (it.buyer ≠ none ∧ it.status ≠ ItemStatus.sold →
      (repairStatus now it).status = ItemStatus.sold ∧
      (repairStatus now it).soldAt = some (it.soldAt.getD now)) ∧
    (it.buyer = none ∧ it.status ≠ ItemStatus.available →
      (repairStatus now it).status = ItemStatus.available) ∧
    (repairStatus now it).buyer = it.buyer ∧
    repairStatus now' (repairStatus now it) = repairStatus now it := by
  refine ⟨?_, ?_, repairStatus_buyer now it, repairStatus_idem now now' it⟩
  · rintro ⟨hb, hs⟩
    have hnot : ¬ (it.buyer = none ∧ it.status ≠ ItemStatus.available) :=
      fun hh => hb hh.1
    rw [repairStatus, if_neg hnot, if_pos ⟨hb, hs⟩]
    exact ⟨rfl, rfl⟩
  · rintro ⟨hb, hs⟩
    rw [repairStatus, if_pos ⟨hb, hs⟩]

/-- A drifted item for the C8 witness: it has a buyer but is still marked
available with no sale date. -/
def itC8 : Item := ⟨0, some 5, ItemStatus.available, none⟩

theorem claim_C8_witness :
    (repairStatus 3 itC8).status = ItemStatus.sold ∧
    (repairStatus 3 itC8).soldAt = some (itC8.soldAt.getD 3) ∧
    (repairStatus 3 itC8).buyer = itC8.buyer ∧
    repairStatus 4 (repairStatus 3 itC8) = repairStatus 3 itC8 :=
  ⟨((claim_C8_repairStatus 3 4 itC8).1 (by decide)).1,
   ((claim_C8_repairStatus 3 4 itC8).1 (by decide)).2,
   (claim_C8_repairStatus 3 4 itC8).2.2.1,
   (claim_C8_repairStatus 3 4 itC8).2.2.2⟩

/-- Claim C9: the alternate mark-as-sold path rejects an item only when its
status is already sold; for every item with status available, pending or
unavailable (equivalently: status ≠ sold) and a requester different from
the seller it sets status=sold, buyer=requester, soldAt=now, appends the
item id to the buyer's boughtItems and the seller's soldItems with a plain
push (append, no duplicate guard), and does not remove the item from the
buyer's watchlist. -/
theorem claim_C9_markSold
    (now : Nat) (db : DB) (i : ItemId) (u : UserId) (it : Item) (bu se : User)
    (hit : findId i db.items = some it)
    (hstatus : it.status ≠ ItemStatus.sold)
    (hself : it.seller ≠ u)
    (hbu : findId u db.users = some bu)
    (hse : findId it.seller db.users = some se) :
    (markSold now db i u).1 = MarkSoldOutcome.sold ∧
    findId i (markSold now db i u).2.items =
      some { it with status := ItemStatus.sold, buyer := some u,
                     soldAt := some now } ∧
    (∃ bu', findId u (markSold now db i u).2.users = some bu' ∧
      bu'.boughtItems = bu.boughtItems ++ [i] ∧
      bu'.watchlist = bu.watchlist) ∧
    (∃ se', findId it.seller (markSold now db i u).2.users = some se' ∧
      se'.soldItems = se.soldItems ++ [i] ∧
      i ∉ se'.activeListings) := by
  have hb : markSold now db i u =
      (MarkSoldOutcome.sold,
        { items := dbUpdate i (fun x =>
            { x with status := ItemStatus.sold, soldAt := some now,
                     buyer := some u }) db.items,
          users := dbUpdate it.seller (fun us =>
            { us with soldItems := us.soldItems ++ [i],
                      activeListings := pullId i us.activeListings })
            (dbUpdate u (fun us =>
              { us with boughtItems := us.boughtItems ++ [i] }) db.users) }) := by
    simp [markSold, hit, hbu, hstatus, hself]
  have hitems : (markSold now db i u).2.items =
      dbUpdate i (fun x =>
        { x with status := ItemStatus.sold, soldAt := some now,
                 buyer := some u }) db.items := by
    rw [hb]
  have husers : (markSold now db i u).2.users =
      dbUpdate it.seller (fun us =>
        { us with soldItems := us.soldItems ++ [i],
                  activeListings := pullId i us.activeListings })
        (dbUpdate u (fun us =>
          { us with boughtItems := us.boughtItems ++ [i] }) db.users) := by
    rw [hb]
  refine ⟨by rw [hb], ?_, ?_, ?_⟩
  · rw [hitems, findId_dbUpdate, if_pos rfl, hit]
    rfl
  · refine ⟨{ bu with boughtItems := bu.boughtItems ++ [i] }, ?_, rfl, rfl⟩
    rw [husers, findId_dbUpdate, if_neg (fun hh => hself hh.symm),
      findId_dbUpdate, if_pos rfl, hbu]
    rfl
  · refine ⟨{ se with soldItems := se.soldItems ++ [i], activeListings := pullId i se.activeListings }, ?_, rfl, not_mem_pullId i se.activeListings⟩
    rw [husers, findId_dbUpdate, if_pos rfl, findId_dbUpdate, if_neg hself, hse]
    rfl

/-- A concrete state for the C9 witness: item 4 is `pending`, the requester
3 already has the item both in boughtItems and on the watchlist. -/
def dbC9 : DB :=
  { items := [(4, ⟨0, none, ItemStatus.pending, none⟩)],
    users := [(0, { soldItems := [9], activeListings := [4, 7, 4] }),
              (3, { boughtItems := [4], watchlist := [4] })] }

theorem claim_C9_witness :
    findId 4 dbC9.items = some ⟨0, none, ItemStatus.pending, none⟩ ∧
    (markSold 11 dbC9 4 3).1 = MarkSoldOutcome.sold :=
  ⟨by decide,
    (claim_C9_markSold 11 dbC9 4 3 ⟨0, none, ItemStatus.pending, none⟩
      { boughtItems := [4], watchlist := [4] }
      { soldItems := [9], activeListings := [4, 7, 4] }
      (by decide) (by decide) (by decide) (by decide) (by decide)).1⟩

/-- Claim C10: item creation is atomic with respect to the seller's
reference list: when, after the new item is saved, the seller's user
record cannot be found to receive the activeListings update, the saved
item is deleted again and NotFound is returned — the database is exactly
as before, so no created item persists whose seller's activeListings was
not updated. -/
theorem claim_C10_create_atomic (db : DB) (newId : ItemId) (u : UserId)
    (hu : findId u db.users = none)
    (hfresh : findId newId db.items = none) :
    (createItem db newId u).1 = CreateOutcome.userNotFound ∧
    (createItem db newId u).2 = db := by
  have hb : createItem db newId u =
      (CreateOutcome.userNotFound,
        { db with items :=
            ((db.items ++
              [(newId, ({ seller := u, status := ItemStatus.available } : Item))]).filter
              (fun p => decide (p.1 ≠ newId))) }) := by
    simp [createItem, hu]
  have hfilter :
      ((db.items ++
        [(newId, ({ seller := u, status := ItemStatus.available } : Item))]).filter
        (fun p => decide (p.1 ≠ newId))) = db.items := by
    rw [List.filter_append]
    have h2 : ([(newId, ({ seller := u, status := ItemStatus.available } : Item))].filter
        (fun p => decide (p.1 ≠ newId))) = [] := by
      simp [List.filter_cons]
    rw [h2, filter_ne_of_findId_none newId db.items hfresh, List.append_nil]
  constructor
  · rw [hb]
  · rw [hb]
    show ({ db with items := _ } : DB) = db
    rw [hfilter]

/-- A concrete state for the C10 witness: no user 8 exists. -/
def dbC10 : DB :=
  { items := [(1, ⟨5, none, ItemStatus.available, none⟩)], users := [] }

theorem claim_C10_witness :
    findId 8 dbC10.users = none ∧ (createItem dbC10 2 8).2 = dbC10 :=
  ⟨by decide, (claim_C10_create_atomic dbC10 2 8 (by decide) (by decide)).2⟩

/-! ## Reconciliation idempotence (claim C7) -/

/-- A drifted state for claim C7: item 1 has a buyer recorded but is still
marked `available`; user 0's stored reference arrays are both empty. -/
def dbC7 : DB :=
  { items := [(1, ⟨0, some 2, ItemStatus.available, none⟩)],
    users := [(0, {})] }

/-- Claim C7 counterexample, on the per-user body of the admin `sync-all`
sweep: the first run repairs item 1's status but — because it computed the
reference arrays before the repair loop — stores `soldItems = []`; the
second run then performs one more user-reference fix, changing the stored
`soldItems` array from `[]` to `[1]`.  The second run is not a no-op. -/
theorem claim_C7_counterexample :
    (syncUser 6 (syncUser 5 dbC7 0).1 0).2 = (0, 1) ∧
    (findId 0 (syncUser 5 dbC7 0).1.users).map User.soldItems = some [] ∧
    (findId 0 (syncUser 6 (syncUser 5 dbC7 0).1 0).1.users).map User.soldItems =
      some [1] ∧
    some ([1] : List ItemId) ≠ some ([] : List ItemId) := by decide

/-- Claim C7 (amended): the per-user reconciliation of the
`POST /fix-all-items` route, which recomputes the reference arrays from the
already-repaired items, is idempotent: a second run with no intervening
mutation fixes no item status (it reports an empty fixed list) and returns
the state completely unchanged. -/
theorem claim_C7_amended_fixAllItems_idempotent
    (now now' : Nat) (db : DB) (u : UserId) :
    fixAllItems now' (fixAllItems now db u).1 u = ((fixAllItems now db u).1, []) := by
  have hsel : ∀ p : Nat × Item,
      (decide (((fun q : Nat × Item =>
        if q.2.seller = u then (q.1, repairStatus now q.2) else q) p).2.seller = u) : Bool) =
        decide (p.2.seller = u) := by
    intro p
    by_cases h : p.2.seller = u <;> simp [h, repairStatus_seller]
  have e1 : List.filter (fun p => decide (p.2.seller = u))
      (List.map (fun p => if p.2.seller = u then (p.1, repairStatus now p.2) else p)
        db.items) =
      List.map (fun p => (p.1, repairStatus now p.2))
        (List.filter (fun p => decide (p.2.seller = u)) db.items) := by
    rw [listFilterMapComm db.items _ _ hsel]
    apply listMapCongr
    intro a ha
    have hau : decide (a.2.seller = u) = true := (List.mem_filter.mp ha).2
    simp only [decide_eq_true_eq] at hau
    simp [hau]
  have e2 : List.map (fun p => (p.1, repairStatus now' p.2))
      (List.map (fun p => (p.1, repairStatus now p.2))
        (List.filter (fun p => decide (p.2.seller = u)) db.items)) =
      List.map (fun p => (p.1, repairStatus now p.2))
        (List.filter (fun p => decide (p.2.seller = u)) db.items) := by
    rw [List.map_map]
    apply listMapCongr
    intro a _
    simp [Function.comp, repairStatus_idem]
  have e3 : List.filter (fun p => decide (repairStatus now' p.2 ≠ p.2))
      (List.map (fun p => (p.1, repairStatus now p.2))
        (List.filter (fun p => decide (p.2.seller = u)) db.items)) = [] := by
    apply listFilterEqNil
    intro q hq
    rcases List.mem_map.mp hq with ⟨a, _, rfl⟩
    simp [repairStatus_idem]
  unfold fixAllItems
  dsimp only
  simp only [Prod.mk.injEq, DB.mk.injEq]
  refine ⟨⟨?_, ?_⟩, ?_⟩
  · rw [List.map_map]
    apply listMapCongr
    intro p _
    simp only [Function.comp_apply]
    by_cases h : p.2.seller = u
    · simp [h, repairStatus_seller, repairStatus_idem]
    · simp [h]
  · simp only [e1, e2, dbUpdate_comp]
  · rw [e1, e3]
    rfl

/-! ## Distance estimator lemmas -/

theorem findKey_cons (k : String) (p : String × Coord) (l : List (String × Coord)) :
    findKey k (p :: l) = if p.1 = k then some p.2 else findKey k l := rfl

theorem findKey_mem {k : String} {l : List (String × Coord)} {v : Coord}
    (h : findKey k l = some v) : v ∈ l.map Prod.snd := by
  induction l with
  | nil => cases h
  | cons p rest ih =>
    rw [findKey_cons] at h
    by_cases hp : p.1 = k
    · rw [if_pos hp] at h
      injection h with h
      simp [h]
    · rw [if_neg hp] at h
      simp [ih h]

/-- Every region label that any of the three lookup tables (or the default
centroid) can produce. -/
def allRegions : List String :=
  ["Delhi", "Mumbai", "Bengaluru", "Chennai", "Hyderabad", "Kolkata",
   "Noida", "Ghaziabad", "Gurugram", "Greater Noida", "Mumbai South",
   "Mumbai Central", "Mumbai West", "Mumbai Northwest", "Mumbai Northeast",
   "Navi Mumbai", "Thane", "Bengaluru Central", "Bengaluru East",
   "Bengaluru North", "Chennai Central", "Chennai West", "Chennai South",
   "Chennai North", "Secunderabad", "Kolkata North", "Pune",
   "Pimpri-Chinchwad", "Ahmedabad", "Gandhinagar", "Delhi NCR", "UP (West)",
   "Mumbai Region", "Pune Region", "Nashik", "Nagpur", "Telangana",
   "Andhra Pradesh", "Southern AP", "Karnataka", "Northern Karnataka",
   "Central Karnataka", "Tamil Nadu", "Southern TN", "Western TN",
   "West Bengal", "Northern WB", "Gujarat", "Southern Gujarat", "Rajasthan",
   "Punjab", "Himachal Pradesh", "Jharkhand", "Bihar", "Odisha",
   "Central India"]

theorem pincodeCoordinates_regions :
    ∀ c ∈ pincodeCoordinates.map Prod.snd, c.region ∈ allRegions := by decide

theorem detailedRegionMap_regions :
    ∀ c ∈ detailedRegionMap.map Prod.snd, c.region ∈ allRegions := by decide

theorem regionMap_regions :
    ∀ c ∈ regionMap.map Prod.snd, c.region ∈ allRegions := by decide

theorem resolve_region_mem (p : String) :
    (getPincodeCoordinates p).region ∈ allRegions := by
  unfold getPincodeCoordinates
  cases h1 : findKey p pincodeCoordinates with
  | some c => exact pincodeCoordinates_regions c (findKey_mem h1)
  | none =>
    cases h2 : findKey (p.take 3) detailedRegionMap with
    | some c => exact detailedRegionMap_regions c (findKey_mem h2)
    | none =>
      cases h3 : findKey (p.take 2) regionMap with
      | some c => exact regionMap_regions c (findKey_mem h3)
      | none => decide

/-- Index of the first Mumbai rule that fires (0 when none does). -/
def mumbaiRule (f t : String) : Nat :=
  if mumbaiCond f t then
    if southCond f t then 1
    else if crossCond f t then 2
    else if naviCond f t then 3
    else if thaneCond f t then 4
    else 0
  else 0

theorem mumbaiStage_eq_rule (f t : String) (p : ℝ × String) :
    mumbaiStage f t p =
      if mumbaiRule f t = 1 then (p.1 * 1.4, "(Mumbai traffic adjustment)")
      else if mumbaiRule f t = 2 then (p.1 * 1.5, "(Mumbai cross-city adjustment)")
      else if mumbaiRule f t = 3 then (p.1 * 1.3, "(Mumbai-Navi Mumbai route)")
      else if mumbaiRule f t = 4 then (p.1 * 1.25, "(Mumbai-Thane route)")
      else p := by
  unfold mumbaiStage mumbaiRule
  split_ifs <;> first | rfl | omega | simp_all

theorem mumbaiCond_symm (f t : String) : mumbaiCond f t = mumbaiCond t f := by
  unfold mumbaiCond
  generalize strIncludes f "Mumbai" = a
  generalize strIncludes t "Mumbai" = b
  generalize strIncludes f "Navi Mumbai" = c
  generalize strIncludes t "Navi Mumbai" = d
  generalize strIncludes f "Thane" = e
  generalize strIncludes t "Thane" = g
  revert a b c d e g
  decide

theorem southCond_symm (f t : String) : southCond f t = southCond t f := by
  unfold southCond
  generalize strIncludes f "Mumbai South" = a
  generalize strIncludes t "Mumbai South" = b
  revert a b
  decide

theorem crossCond_symm (f t : String) : crossCond f t = crossCond t f := by
  unfold crossCond
  generalize strIncludes f "Mumbai West" = a
  generalize strIncludes t "Mumbai West" = b
  generalize strIncludes f "Mumbai Northeast" = c
  generalize strIncludes t "Mumbai Northeast" = d
  generalize strIncludes f "Mumbai Northwest" = e
  generalize strIncludes t "Mumbai Northwest" = g
  revert a b c d e g
  decide

theorem naviCond_symm (f t : String) : naviCond f t = naviCond t f := by
  unfold naviCond
  generalize strIncludes f "Mumbai" = a
  generalize strIncludes t "Mumbai" = b
  generalize strIncludes f "Navi Mumbai" = c
  generalize strIncludes t "Navi Mumbai" = d
  revert a b c d
  decide

theorem thaneCond_symm (f t : String) : thaneCond f t = thaneCond t f := by
  unfold thaneCond
  generalize strIncludes f "Mumbai" = a
  generalize strIncludes t "Mumbai" = b
  generalize strIncludes f "Thane" = c
  generalize strIncludes t "Thane" = d
  revert a b c d
  decide

theorem mumbaiRule_symm (f t : String) : mumbaiRule f t = mumbaiRule t f := by
  unfold mumbaiRule
  rw [mumbaiCond_symm, southCond_symm, crossCond_symm, naviCond_symm, thaneCond_symm]

theorem mumbaiStage_fst_symm (f t : String) (p q : ℝ × String) (h : p.1 = q.1) :
    (mumbaiStage f t p).1 = (mumbaiStage t f q).1 := by
  rw [mumbaiStage_eq_rule, mumbaiStage_eq_rule, mumbaiRule_symm f t]
  split_ifs <;> simp [h]

theorem regionStage_fst_symm (A B : String) (f t : Coord) (d : ℝ) :
    (regionStage A B f t d).1 = (regionStage B A t f d).1 := by
  unfold regionStage
  by_cases hr : f.region = t.region
  · rw [if_pos hr, if_pos hr.symm]
    by_cases hp : A = B
    · rw [if_pos hp, if_pos hp.symm]
    · rw [if_neg hp, if_neg (show ¬ B = A from fun hh => hp hh.symm)]
      by_cases hd : d < 5
      · rw [if_pos hd, if_pos hd, hr]
      · rw [if_neg hd, if_neg hd]
  · rw [if_neg hr, if_neg (show ¬ t.region = f.region from fun hh => hr hh.symm)]

theorem regionStage_self (A : String) (f : Coord) (d : ℝ) :
    regionStage A A f f d = (1, "(same area)") := by
  unfold regionStage
  rw [if_pos rfl, if_pos rfl]

theorem haversineA_symm (lat1 lon1 lat2 lon2 : ℚ) :
    haversineA lat1 lon1 lat2 lon2 = haversineA lat2 lon2 lat1 lon1 := by
  unfold haversineA toRadians
  have h1 : ((lat1 : ℝ) - lat2) * (Real.pi / 180) / 2 =
      -(((lat2 : ℝ) - lat1) * (Real.pi / 180) / 2) := by ring
  have h2 : ((lon1 : ℝ) - lon2) * (Real.pi / 180) / 2 =
      -(((lon2 : ℝ) - lon1) * (Real.pi / 180) / 2) := by ring
  rw [h1, h2, Real.sin_neg, Real.sin_neg]
  ring

theorem haversine_symm (lat1 lon1 lat2 lon2 : ℚ) :
    haversine lat1 lon1 lat2 lon2 = haversine lat2 lon2 lat1 lon1 := by
  unfold haversine
  by_cases h : lat1 = lat2 ∧ lon1 = lon2
  · rw [if_pos h, if_pos ⟨h.1.symm, h.2.symm⟩]
  · rw [if_neg h, if_neg (fun hh => h ⟨hh.1.symm, hh.2.symm⟩), haversineA_symm]

theorem jsRound_eval (x : ℝ) (n : ℤ) (h1 : (n : ℝ) ≤ x + 1 / 2)
    (h2 : x + 1 / 2 < n + 1) : jsRound x = n := by
  unfold jsRound
  rw [Int.floor_eq_iff]
  exact ⟨h1, h2⟩

theorem roundStage_one : roundStage 1 = 1 := by
  unfold roundStage
  rw [if_neg (by norm_num),
    jsRound_eval ((1 : ℝ) * 10) 10 (by norm_num) (by norm_num)]
  norm_num

theorem roundStage_onethree : roundStage (1 * 1.3) = 13 / 10 := by
  unfold roundStage
  rw [if_neg (by norm_num),
    jsRound_eval ((1 : ℝ) * 1.3 * 10) 13 (by norm_num) (by norm_num)]
  norm_num

theorem roundStage_max_two : roundStage (max 2 0) = 2 := by
  unfold roundStage
  rw [show (max (2 : ℝ) 0) = 2 from by norm_num, if_neg (by norm_num),
    jsRound_eval ((2 : ℝ) * 10) 20 (by norm_num) (by norm_num)]
  norm_num

/-- The only region label on which a Mumbai rule fires for a same-region
pair (r, r) is "Navi Mumbai" (it contains both "Mumbai" and "Navi Mumbai",
so the Navi-Mumbai rule matches); every other reachable label fires no
rule. -/
theorem mumbaiRule_self :
    ∀ r ∈ allRegions, mumbaiRule r r = if r = "Navi Mumbai" then 3 else 0 := by
  decide

/-! ## Distance claims -/

/-- Claim C5: distance estimation is symmetric — for every pair of postal
codes A and B, the rounded distance of estimate(A, B) equals that of
estimate(B, A). -/
theorem claim_C5_distance_symmetry (A B : String) :
    (calculateDistance A B).distance = (calculateDistance B A).distance := by
  unfold calculateDistance
  dsimp only
  apply congrArg roundStage
  apply mumbaiStage_fst_symm
  rw [haversine_symm]
  exact regionStage_fst_symm A B _ _ _

/-- Claim C4 counterexample: "402001" resolves (via the "402" prefix) to
region "Navi Mumbai", and estimate("402001", "402001") returns 1.3 km —
the same-area pin to 1 km is multiplied by the ×1.3 Mumbai-to-Navi-Mumbai
rule, whose guard matches because "Navi Mumbai" contains "Mumbai". -/
theorem claim_C4_counterexample :
    (calculateDistance "402001" "402001").distance = (13 : ℝ) / 10 ∧
    ((13 : ℝ) / 10 ≠ 1) := by
  constructor
  · unfold calculateDistance
    dsimp only
    rw [show getPincodeCoordinates "402001" =
      ⟨18.9068, 72.8164, "Navi Mumbai"⟩ from rfl]
    dsimp only
    rw [regionStage_self, mumbaiStage_eq_rule,
      show mumbaiRule "Navi Mumbai" "Navi Mumbai" = 3 from by decide,
      if_neg (show ¬(3 = 1) by decide), if_neg (show ¬(3 = 2) by decide),
      if_pos (show (3 : Nat) = 3 from rfl)]
    dsimp only
    rw [roundStage_onethree]
  · norm_num

/-- Claim C4 (amended): for every 6-digit postal code X, estimate(X, X)
returns exactly 1 km unless X resolves to region "Navi Mumbai" (the "402"
prefix), in which case the Mumbai-to-Navi-Mumbai rule multiplies the
pinned 1 km by 1.3 and the result is 1.3 km. -/
theorem claim_C4_amended_same_code_distance (X : String)
    (h : validPincode X = true) :
    (calculateDistance X X).distance =
      if (getPincodeCoordinates X).region = "Navi Mumbai" then (13 : ℝ) / 10
      else 1 := by
  have hrule := mumbaiRule_self _ (resolve_region_mem X)
  unfold calculateDistance
  dsimp only
  rw [regionStage_self, mumbaiStage_eq_rule, hrule]
  by_cases h3 : (getPincodeCoordinates X).region = "Navi Mumbai"
  · simp only [if_pos h3, if_true, if_false]
    rw [if_neg (show ¬(3 = 1) by decide), if_neg (show ¬(3 = 2) by decide)]
    dsimp only
    rw [roundStage_onethree]
  · simp only [if_neg h3, if_true, if_false]
    rw [if_neg (show ¬(0 = 1) by decide), if_neg (show ¬(0 = 2) by decide),
      if_neg (show ¬(0 = 3) by decide), if_neg (show ¬(0 = 4) by decide)]
    dsimp only
    rw [roundStage_one]

theorem claim_C4_amended_witness :
    validPincode "402001" = true ∧
    (calculateDistance "402001" "402001").distance =
      (if (getPincodeCoordinates "402001").region = "Navi Mumbai"
        then (13 : ℝ) / 10 else 1) :=
  ⟨by decide, claim_C4_amended_same_code_distance "402001" (by decide)⟩

/-- Evaluation of estimate("400001", "400050"): "400001" hits the exact
table (region "Mumbai"), "400050" falls back to the "400" prefix (also
region "Mumbai", same coordinates), so the raw haversine distance is 0,
the same-city clamp lifts it to 2 km with note "(same city)", and no
Mumbai multiplier fires because "Mumbai" does not contain "Mumbai South",
"Navi Mumbai" or "Thane". -/
theorem calcDist_400001_400050 :
    (calculateDistance "400001" "400050").distance = 2 ∧
    (calculateDistance "400001" "400050").note = "(same city)" ∧
    (calculateDistance "400001" "400050").exact = 0 := by
  have hhav : haversine (19.0760 : ℚ) 72.8777 19.0760 72.8777 = 0 := by
    unfold haversine
    rw [if_pos ⟨rfl, rfl⟩]
  have hreg : regionStage "400001" "400050"
      (⟨19.0760, 72.8777, "Mumbai"⟩ : Coord) ⟨19.0760, 72.8777, "Mumbai"⟩
      (0 : ℝ) = (max 2 0, "(same city)") := by
    unfold regionStage
    rw [if_pos rfl, if_neg (show ¬("400001" = "400050") by decide),
      if_pos (show (0 : ℝ) < 5 by norm_num),
      if_pos (show isMetroRegion "Mumbai" = true by decide)]
  have hmum : mumbaiStage "Mumbai" "Mumbai" ((max 2 0 : ℝ), "(same city)") =
      ((max 2 0 : ℝ), "(same city)") := by
    rw [mumbaiStage_eq_rule, show mumbaiRule "Mumbai" "Mumbai" = 0 from by decide,
      if_neg (show ¬(0 = 1) by decide), if_neg (show ¬(0 = 2) by decide),
      if_neg (show ¬(0 = 3) by decide), if_neg (show ¬(0 = 4) by decide)]
  have hf : getPincodeCoordinates "400001" = ⟨19.0760, 72.8777, "Mumbai"⟩ := rfl
  have ht : getPincodeCoordinates "400050" = ⟨19.0760, 72.8777, "Mumbai"⟩ := rfl
  refine ⟨?_, ?_, ?_⟩
  · unfold calculateDistance
    dsimp only
    rw [hf, ht]
    dsimp only
    rw [hhav, hreg, hmum]
    dsimp only
    rw [roundStage_max_two]
  · unfold calculateDistance
    dsimp only
    rw [hf, ht]
    dsimp only
    rw [hhav, hreg, hmum]
  · unfold calculateDistance
    dsimp only
    rw [hf, ht]
    dsimp only
    rw [hhav]

/-- Claim C6 counterexample: for "400001" and "400050" the note attached to
the estimate is "(same city)" (the same-region metro clamp), not the
"(Mumbai traffic adjustment)" note the claim requires. -/
theorem claim_C6_counterexample :
    (calculateDistance "400001" "400050").note = "(same city)" ∧
    "(same city)" ≠ "(Mumbai traffic adjustment)" :=
  ⟨calcDist_400001_400050.2.1, by decide⟩

/-- Claim C6 (amended): for "400001" and "400050" the estimate applies the
same-city clamp (note "(same city)") and returns 2 km, which is strictly
greater than the raw geometric haversine distance — the latter is 0 because
both codes resolve to identical coordinates (the detailed table's six-digit
keys are unreachable under the three-digit prefix lookup). -/
theorem claim_C6_amended_same_city :
    (calculateDistance "400001" "400050").note = "(same city)" ∧
    (calculateDistance "400001" "400050").distance = 2 ∧
    (calculateDistance "400001" "400050").exact = 0 ∧
    (calculateDistance "400001" "400050").exact <
      (calculateDistance "400001" "400050").distance := by
  refine ⟨calcDist_400001_400050.2.1, calcDist_400001_400050.1,
    calcDist_400001_400050.2.2, ?_⟩
  rw [calcDist_400001_400050.2.2, calcDist_400001_400050.1]
  norm_num

end Marketplace
